import Mathlib

/-!
Verification of the LOST repository glue code.

This file shallowly embeds the two source files of the repository:

* `networks.py` — `get_model`, `ResNet50Bottom`, `vgg16Bottom`: loading and
  truncating pretrained vision backbones.
* `tools/train_net_for_LOST_OD.py` — dataset registration in detectron2's
  catalogs, `Trainer.build_evaluator`, `Trainer.test_with_TTA`, and `main`.

PyTorch `nn.Module` objects are embedded as finite rose trees carrying a class
tag, the `training` flag, the `requires_grad` flags of the parameters owned
directly by the module, and the list of child modules (in attribute-assignment
order, which is the order `children()` iterates).  Tensors' numeric contents
are not modelled: the claims under verification are about module structure,
parameter freezing, evaluation mode, control flow and error behaviour.
-/

namespace LOST

/-! ## Python `in` on strings -/

/-- `startsWithL pat l` — `pat` is a prefix of `l` (on character lists). -/
def startsWithL : List Char → List Char → Bool
  | [], _ => true
  | _ :: _, [] => false
  | a :: as, b :: bs => a = b && startsWithL as bs

/-- `containsSub pat l` — `pat` occurs as a contiguous substring of `l`. -/
def containsSub (pat : List Char) : List Char → Bool
  | [] => startsWithL pat []
  | b :: bs => startsWithL pat (b :: bs) || containsSub pat bs

/-- Python's `pat in s` test on strings. -/
def pyIn (pat s : String) : Bool := containsSub pat.data s.data

/-! ## Python exceptions that the embedded code can raise -/

/-- The exceptions reachable in `networks.get_model`:
`UnboundLocalError` (line 19/24: `replace_stride_with_dilation` referenced
without assignment), `KeyError` (line 34: `vits.__dict__[arch]` with an unknown
architecture), `IndexError` (line 99: indexing `[0]` into an empty
`nn.Sequential`), `TypeError` (line 99: slicing a module that is not an
`nn.Sequential`). -/
inductive PyErr where
  | unboundLocal
  | keyError
  | indexError
  | typeError
deriving DecidableEq, Repr

/-! ## `nn.Module` as a rose tree -/

/-- An `nn.Module`: class tag, `training` flag, `requires_grad` flags of the
parameters registered directly on this module, and the child modules in
registration order (`children()`). -/
inductive Module where
  | mk (tag : String) (training : Bool) (ownParams : List Bool) (children : List Module)
deriving Repr

/-- The class tag of a module. -/
def Module.tag : Module → String
  | .mk t _ _ _ => t

/-- The `training` flag of a module. -/
def Module.training : Module → Bool
  | .mk _ tr _ _ => tr

/-- The `requires_grad` flags of the parameters owned directly by a module. -/
def Module.ownParams : Module → List Bool
  | .mk _ _ ps _ => ps

/-- Python `list(m.children())`: the immediate child modules. -/
def Module.children : Module → List Module
  | .mk _ _ _ cs => cs

mutual
/-- Python `m.parameters()`: the `requires_grad` flags of all parameters of the
module and, recursively, of all its descendants. -/
def Module.params : Module → List Bool
  | .mk _ _ ps cs => ps ++ Module.paramsList cs

/-- `Module.params` over a list of modules, concatenated in order. -/
def Module.paramsList : List Module → List Bool
  | [] => []
  | m :: ms => m.params ++ Module.paramsList ms
end

mutual
/-- The loop `for p in model.parameters(): p.requires_grad = False`
(networks.py lines 36–37): every parameter of the module and of its
descendants gets `requires_grad = False`. -/
def Module.freeze : Module → Module
  | .mk t tr ps cs => .mk t tr (ps.map (fun _ => false)) (Module.freezeList cs)

/-- `Module.freeze` applied to every module of a list. -/
def Module.freezeList : List Module → List Module
  | [] => []
  | m :: ms => m.freeze :: Module.freezeList ms
end

mutual
/-- Python `m.eval()`: sets `training = False` on the module and recursively on
all its descendants. -/
def Module.evalMode : Module → Module
  | .mk t _ ps cs => .mk t false ps (Module.evalModeList cs)

/-- `Module.evalMode` applied to every module of a list. -/
def Module.evalModeList : List Module → List Module
  | [] => []
  | m :: ms => m.evalMode :: Module.evalModeList ms
end

/-- Class tags of the container modules whose `forward` applies their children
in sequence.  `Sequential` folds its children; `ResNet50Bottom` and
`vgg16Bottom` forward through their single child `self.features`; the
top-level torchvision classes also run their children in registration order
(their extra functional `torch.flatten` between features and head is not a
child module and is immaterial to the truncated backbones studied here, whose
`forward` never reaches it). -/
def containerTags : List String :=
  ["Sequential", "ResNet50Bottom", "vgg16Bottom", "ResNet", "VGG"]

mutual
/-- Symbolic `forward`: the input is the list of layer tags already applied to
it; a leaf layer appends its tag, a container applies its children in order.
An empty `nn.Sequential` is the identity. -/
def Module.forward (m : Module) (x : List String) : List String :=
  match m with
  | .mk t _ _ cs => if t ∈ containerTags then Module.forwardList cs x else x ++ [t]

/-- Apply a list of modules in sequence to a symbolic input. -/
def Module.forwardList : List Module → List String → List String
  | [], x => x
  | m :: ms, x => Module.forwardList ms (m.forward x)
end

/-! ## The torchvision / dino models that `get_model` instantiates -/

/-- `nn.Sequential(*ms)`. -/
def sequential (ms : List Module) : Module := .mk "Sequential" true [] ms

/-- A convolution layer carrying a weight and a bias parameter. -/
def convLayer (name : String) : Module := .mk name true [true, true] []

/-- A batch-norm layer carrying a weight and a bias parameter. -/
def bnLayer (name : String) : Module := .mk name true [true, true] []

/-- A parameter-free layer (ReLU, pooling, dropout, …). -/
def plainLayer (name : String) : Module := .mk name true [] []

/-- A linear layer carrying a weight and a bias parameter. -/
def linearLayer (name : String) : Module := .mk name true [true, true] []

/-- One of the four bottleneck stages `layer1 … layer4` of torchvision's
ResNet-50, modelled as one opaque module carrying parameters; `dilated`
records whether `replace_stride_with_dilation` turned that stage's stride
into a dilation. -/
def resnetStage (name : String) (dilated : Bool) : Module :=
  .mk (name ++ (if dilated then "_dilated" else "")) true [true, true] []

/-- torchvision `resnet50(pretrained=…, replace_stride_with_dilation=rswd)`.
Its children, in registration order, are `conv1, bn1, relu, maxpool, layer1,
layer2, layer3, layer4, avgpool, fc`; `rswd = [d2, d3, d4]` controls the
dilation of `layer2, layer3, layer4`.  The pretrained weights affect only
tensor values, which are not modelled. -/
def resnet50 (pretrained : Bool) (rswd : List Bool) : Module :=
  .mk "ResNet" true []
    [ .mk "conv1" true [true] []
    , bnLayer "bn1"
    , plainLayer "relu"
    , plainLayer "maxpool"
    , resnetStage "layer1" false
    , resnetStage "layer2" (rswd.getD 0 false)
    , resnetStage "layer3" (rswd.getD 1 false)
    , resnetStage "layer4" (rswd.getD 2 false)
    , plainLayer "avgpool"
    , linearLayer "fc" ]

/-- The 31 modules of torchvision VGG16's `features` block: thirteen
convolutions, each followed by a ReLU, and five max-poolings; the last module
is the fifth `MaxPool2d`. -/
def vggFeatureLayers : List Module :=
  [ convLayer "Conv2d_0", plainLayer "ReLU_1"
  , convLayer "Conv2d_2", plainLayer "ReLU_3", plainLayer "MaxPool2d_4"
  , convLayer "Conv2d_5", plainLayer "ReLU_6"
  , convLayer "Conv2d_7", plainLayer "ReLU_8", plainLayer "MaxPool2d_9"
  , convLayer "Conv2d_10", plainLayer "ReLU_11"
  , convLayer "Conv2d_12", plainLayer "ReLU_13"
  , convLayer "Conv2d_14", plainLayer "ReLU_15", plainLayer "MaxPool2d_16"
  , convLayer "Conv2d_17", plainLayer "ReLU_18"
  , convLayer "Conv2d_19", plainLayer "ReLU_20"
  , convLayer "Conv2d_21", plainLayer "ReLU_22", plainLayer "MaxPool2d_23"
  , convLayer "Conv2d_24", plainLayer "ReLU_25"
  , convLayer "Conv2d_26", plainLayer "ReLU_27"
  , convLayer "Conv2d_28", plainLayer "ReLU_29", plainLayer "MaxPool2d_30" ]

/-- torchvision `vgg16(pretrained=…)`.  Its children, in registration order,
are `features` (an `nn.Sequential` of 31 layers), `avgpool`, and `classifier`
(an `nn.Sequential` of linear, ReLU and dropout layers). -/
def vgg16 (pretrained : Bool) : Module :=
  .mk "VGG" true []
    [ sequential vggFeatureLayers
    , plainLayer "AdaptiveAvgPool2d"
    , sequential
        [ linearLayer "Linear_0", plainLayer "ReLU_1", plainLayer "Dropout_2"
        , linearLayer "Linear_3", plainLayer "ReLU_4", plainLayer "Dropout_5"
        , linearLayer "Linear_6" ] ]

/-- `vits.__dict__[arch](patch_size=patch_size, num_classes=0)` — the dino
vision-transformer constructors exported by `dino.vision_transformer`
(external to this repository); an unknown key raises `KeyError`.  The
transformer is modelled as one opaque module carrying parameters. -/
def vitsDict (arch : String) (patch_size : Nat) : Except PyErr Module :=
  if arch = "vit_tiny" ∨ arch = "vit_small" ∨ arch = "vit_base" then
    .ok (.mk ("VisionTransformer_" ++ arch ++ "_patch" ++ toString patch_size)
          true [true, true] [])
  else
    .error .keyError

/-! ## networks.py -/

/-- `ResNet50Bottom.__init__` (networks.py lines 80–89): the new module's only
child is `self.features = nn.Sequential(*list(original_model.children())[:-2])`,
dropping the last two children of the wrapped model. -/
def ResNet50Bottom (original_model : Module) : Module :=
  .mk "ResNet50Bottom" true []
    [sequential (original_model.children.dropLast.dropLast)]

/-- `vgg16Bottom.__init__` (networks.py lines 92–99):
`self.features = nn.Sequential(*list(original_model.children())[:-2])`, then
`self.features = nn.Sequential(*list(self.features[0][:-1]))`.  The second
line indexes `[0]` into the first `Sequential` — an `IndexError` when it is
empty — and slices `[:-1]` off the result — a `TypeError` when that child is
not itself an `nn.Sequential`. -/
def vgg16Bottom (original_model : Module) : Except PyErr Module :=
  let features := sequential (original_model.children.dropLast.dropLast)
  match features.children.get? 0 with
  | none => .error .indexError
  | some first =>
      if first.tag = "Sequential" then
        .ok (.mk "vgg16Bottom" true [] [sequential first.children.dropLast])
      else
        .error .typeError

/-- networks.py lines 11–16: the mapping from `resnet_dilate` to
`replace_stride_with_dilation`; any other value leaves the local variable
unassigned (`none`). -/
def replaceStrideWithDilation (resnet_dilate : Nat) : Option (List Bool) :=
  if resnet_dilate = 1 then some [false, false, false]
  else if resnet_dilate = 2 then some [false, false, true]
  else if resnet_dilate = 4 then some [false, true, true]
  else none

/-- networks.py lines 10–34: construct the base model for `arch`.  A resnet
arch with `resnet_dilate` outside `{1, 2, 4}` raises `UnboundLocalError` when
line 19/24 reads the never-assigned `replace_stride_with_dilation`. -/
def buildBase (arch : String) (patch_size resnet_dilate : Nat) :
    Except PyErr Module :=
  if pyIn "resnet" arch then
    match replaceStrideWithDilation resnet_dilate with
    | none => .error .unboundLocal
    | some rswd => .ok (resnet50 (pyIn "imagenet" arch) rswd)
  else if pyIn "vgg16" arch then
    .ok (vgg16 (pyIn "imagenet" arch))
  else
    vitsDict arch patch_size

/-- The `if "resnet" in arch … elif "vgg16" in arch …` wrapping step, which
appears twice in `get_model`: at lines 64–67 (inside the non-imagenet branch,
before loading the pretrained weights) and at lines 71–74. -/
def wrapBottom (arch : String) (model : Module) : Except PyErr Module :=
  if pyIn "resnet" arch then .ok (ResNet50Bottom model)
  else if pyIn "vgg16" arch then vgg16Bottom model
  else .ok model

/-- networks.py lines 9–77, `get_model(arch, patch_size, resnet_dilate,
device, pretrained_weights, key)`.  `model.cuda()` (line 52), the
`prefix`/`key_` selection (lines 53–62) and
`utils.load_pretrained_weights(...)` (line 68, external dino code) move the
model to the GPU and overwrite tensor values from a checkpoint; they do not
change the module structure, the `requires_grad` flags or the `training`
flags, so they are not reflected in the returned tree. -/
def get_model (arch : String) (patch_size resnet_dilate : Nat)
    (device pretrained_weights key : String) : Except PyErr Module :=
  match buildBase arch patch_size resnet_dilate with
  | .error e => .error e
  | .ok model =>
    -- lines 36–37: freeze every parameter
    let model := Module.freeze model
    -- lines 40–68: non-imagenet arches are wrapped before the external
    -- pretrained-weight loading
    match (if pyIn "imagenet" arch then .ok model else wrapBottom arch model) with
    | .error e => .error e
    | .ok model =>
      -- lines 70–74: "If ResNet or VGG16 loose the last fully connected layer"
      match wrapBottom arch model with
      | .error e => .error e
      | .ok model => .ok (Module.evalMode model)

/-! ## tools/train_net_for_LOST_OD.py — dataset registration -/

/-- The metadata record held by detectron2's `MetadataCatalog` for one
dataset; only the fields this script reads or writes are modelled, each
`none` until assigned. -/
structure Metadata where
  thing_classes : Option (List String)
  evaluator_type : Option String
  split : Option String
  year : Option Nat
  name : Option String
deriving DecidableEq, Repr

/-- A fresh metadata record, as `MetadataCatalog.get` creates on first
access. -/
def Metadata.empty : Metadata := ⟨none, none, none, none, none⟩

/-- The dataset functions this script registers, represented symbolically:
`loadJsonDatasetField path` stands for the closure that opens `path`, parses
it as JSON and returns `json_data["dataset"]`. -/
inductive DatasetFunc where
  | loadJsonDatasetField (path : String)
deriving DecidableEq, Repr

/-- A parsed JSON file, abstracted to its top-level field map; `α` is the
type of field values. -/
structure JsonFile (α : Type) where
  field : String → α

/-- Run a registered dataset function against a file system mapping paths to
parsed JSON files. -/
def DatasetFunc.run {α : Type} : DatasetFunc → (String → JsonFile α) → α
  | .loadJsonDatasetField path, files => (files path).field "dataset"

/-- detectron2's two catalogs: `DatasetCatalog` as an ordered association
list of registered names (detectron2 rejects duplicate registration), and
`MetadataCatalog` as a total map (`get` auto-creates records, so the initial
map sends unknown names to `Metadata.empty`). -/
structure Catalogs where
  datasetCatalog : List (String × DatasetFunc)
  metadataCatalog : String → Metadata

/-- `detectron2.data.DatasetCatalog.register(name, f)`: fails if `name` is
already registered, otherwise appends the pair. -/
def registerDataset (c : Catalogs) (name : String) (f : DatasetFunc) :
    Except String Catalogs :=
  if name ∈ c.datasetCatalog.map Prod.fst then
    .error ("Dataset " ++ name ++ " is already registered!")
  else
    .ok { c with datasetCatalog := c.datasetCatalog ++ [(name, f)] }

/-- `detectron2.data.MetadataCatalog.get(name).<field> = value`, as a record
update of the metadata stored under `name`. -/
def setMeta (c : Catalogs) (name : String) (upd : Metadata → Metadata) :
    Catalogs :=
  { c with
    metadataCatalog := fun n =>
      if n = name then upd (c.metadataCatalog name) else c.metadataCatalog n }

/-- One registration block of `register_voc_in_coco_style` (lines 58–70,
72–84, 86–98): register the dataset function for `json_path` under
`dataset_name`, then copy `thing_classes`, `split` and `year` from the
built-in dataset `builtin_name`, set `evaluator_type = "coco"`, and set
`name` to the dataset's own name. -/
def registerOneVocInCocoStyle (c : Catalogs)
    (dataset_name json_path builtin_name : String) : Except String Catalogs := do
  let c ← registerDataset c dataset_name (.loadJsonDatasetField json_path)
  let c := setMeta c dataset_name
    (fun m => { m with thing_classes := (c.metadataCatalog builtin_name).thing_classes })
  let c := setMeta c dataset_name (fun m => { m with evaluator_type := some "coco" })
  let c := setMeta c dataset_name
    (fun m => { m with split := (c.metadataCatalog builtin_name).split })
  let c := setMeta c dataset_name
    (fun m => { m with year := (c.metadataCatalog builtin_name).year })
  let c := setMeta c dataset_name (fun m => { m with name := some dataset_name })
  .ok c

/-- `register_voc_in_coco_style` (train_net_for_LOST_OD.py lines 48–98) with
its default json paths; note the voc2012 trainval default path points at the
`voc_objects_2012_test_coco_style.json` file. -/
def register_voc_in_coco_style (c : Catalogs)
    (voc2007_trainval_json_path : String := "./datasets/voc_objects_2007_trainval_coco_style.json")
    (voc2007_test_json_path : String := "./datasets/voc_objects_2007_test_coco_style.json")
    (voc2012_trainval_json_path : String := "./datasets/voc_objects_2012_test_coco_style.json") :
    Except String Catalogs := do
  let dataset_suffix := "coco_style"
  let c ← registerOneVocInCocoStyle c ("voc_2007_trainval_" ++ dataset_suffix)
            voc2007_trainval_json_path "voc_2007_trainval"
  let c ← registerOneVocInCocoStyle c ("voc_2007_test_" ++ dataset_suffix)
            voc2007_test_json_path "voc_2007_test"
  let c ← registerOneVocInCocoStyle c ("voc_2012_trainval_" ++ dataset_suffix)
            voc2012_trainval_json_path "voc_2012_trainval"
  .ok c

/-- `register_clustered_LOST_pseudo_boxes_for_the_voc2007_trainval_dataset`
(lines 101–114) with its default arguments: register the pseudo-box dataset
function, copy `thing_classes` from the built-in `voc_2007_trainval`, and set
`evaluator_type = "coco"` (no `split`, `year` or `name` here). -/
def register_clustered_LOST_pseudo_boxes_for_the_voc2007_trainval_dataset
    (c : Catalogs)
    (voc2007_json_path : String := "./datasets/voc_2007_trainval_LOST_OD_clu20.json")
    (voc2007_dataset_name : String := "voc_2007_trainval_LOST_OD_clu20") :
    Except String Catalogs := do
  let c ← registerDataset c voc2007_dataset_name (.loadJsonDatasetField voc2007_json_path)
  let c := setMeta c voc2007_dataset_name
    (fun m => { m with thing_classes := (c.metadataCatalog "voc_2007_trainval").thing_classes })
  let c := setMeta c voc2007_dataset_name
    (fun m => { m with evaluator_type := some "coco" })
  .ok c

/-- Lines 116–117, executed at module import: both registration functions are
called, with no arguments, in order. -/
def moduleImportRegistrations (c : Catalogs) : Except String Catalogs := do
  let c ← register_voc_in_coco_style c
  register_clustered_LOST_pseudo_boxes_for_the_voc2007_trainval_dataset c

/-! ## tools/train_net_for_LOST_OD.py — Trainer.build_evaluator -/

/-- The individual detectron2 evaluator objects `Trainer.build_evaluator` can
construct, each remembering the dataset it evaluates.  (Constructor arguments
such as `distributed=True` and the output folder configure file output only
and are not modelled.) -/
inductive SingleEvaluator where
  | semSeg (dataset_name : String)
  | coco (dataset_name : String)
  | cocoPanoptic (dataset_name : String)
  | cityscapesInstance (dataset_name : String)
  | cityscapesSemSeg (dataset_name : String)
  | pascalVOC (dataset_name : String)
  | lvis (dataset_name : String)
deriving DecidableEq, Repr

/-- The value returned by `Trainer.build_evaluator`: either a single
evaluator, or a `DatasetEvaluators` combination of several. -/
inductive EvaluatorResult where
  | single (e : SingleEvaluator)
  | combined (evaluators : List SingleEvaluator)
deriving DecidableEq, Repr

/-- The evaluator types `Trainer.build_evaluator` handles without raising. -/
def handledEvaluatorTypes : List String :=
  ["sem_seg", "coco", "coco_panoptic_seg", "cityscapes_instance",
   "cityscapes_sem_seg", "pascal_voc", "lvis"]

/-- `Trainer.build_evaluator` (lines 143–189), as a function of the dataset
name and of its `evaluator_type` metadata.  The two cityscapes branches also
assert `torch.cuda.device_count() >= comm.get_rank()`, a statement about the
execution environment (GPU count and process rank), not about the inputs; it
is not modelled.  The `NotImplementedError` carries the source's message. -/
def Trainer.build_evaluator (dataset_name evaluator_type : String) :
    Except String EvaluatorResult :=
  let evaluator_list : List SingleEvaluator := []
  let evaluator_list :=
    if evaluator_type = "sem_seg" ∨ evaluator_type = "coco_panoptic_seg" then
      evaluator_list ++ [.semSeg dataset_name]
    else evaluator_list
  let evaluator_list :=
    if evaluator_type = "coco" ∨ evaluator_type = "coco_panoptic_seg" then
      evaluator_list ++ [.coco dataset_name]
    else evaluator_list
  let evaluator_list :=
    if evaluator_type = "coco_panoptic_seg" then
      evaluator_list ++ [.cocoPanoptic dataset_name]
    else evaluator_list
  if evaluator_type = "cityscapes_instance" then
    .ok (.single (.cityscapesInstance dataset_name))
  else if evaluator_type = "cityscapes_sem_seg" then
    .ok (.single (.cityscapesSemSeg dataset_name))
  else if evaluator_type = "pascal_voc" then
    .ok (.single (.pascalVOC dataset_name))
  else if evaluator_type = "lvis" then
    .ok (.single (.lvis dataset_name))
  else
    match evaluator_list with
    | [] => .error ("no Evaluator for the dataset " ++ dataset_name
                    ++ " with the type " ++ evaluator_type)
    | [e] => .ok (.single e)
    | es => .ok (.combined es)

/-! ## tools/train_net_for_LOST_OD.py — Trainer.test_with_TTA and main -/

/-- `Trainer.test_with_TTA` (lines 191–206): wraps the model in
`GeneralizedRCNNWithTTA`, builds the evaluators, runs the external
`cls.test` — whose `OrderedDict` result is the parameter here — and returns
that result with every key suffixed by `"_TTA"` and the values untouched. -/
def Trainer.test_with_TTA {α : Type} (inner_test_result : List (String × α)) :
    List (String × α) :=
  inner_test_result.map (fun kv => (kv.1 ++ "_TTA", kv.2))

/-- Python `dict.update` with a single key: an existing key keeps its
position and gets the new value, a new key is appended. -/
def dictUpdateOne {α : Type} (d : List (String × α)) (k : String) (v : α) :
    List (String × α) :=
  if k ∈ d.map Prod.fst then
    d.map (fun kv => if kv.1 = k then (kv.1, v) else kv)
  else
    d ++ [(k, v)]

/-- Python `d.update(other)`: fold `dictUpdateOne` over `other` in order. -/
def dictUpdate {α : Type} (d : List (String × α)) :
    List (String × α) → List (String × α)
  | [] => d
  | kv :: rest => dictUpdate (dictUpdateOne d kv.1 kv.2) rest

/-- The command-line arguments `main` inspects. -/
structure ArgsT where
  eval_only : Bool
  resume : Bool

/-- The configuration switch `main` inspects after `setup(args)`. -/
structure CfgT where
  test_aug_enabled : Bool

/-- The externally visible steps `main` performs, in order. -/
inductive MainAction where
  | build_model
  | load_checkpoint
  | run_test
  | run_test_with_TTA
  | verify_results
  | construct_trainer
  | resume_or_load
  | register_TTA_hook
  | run_train
deriving DecidableEq, Repr

/-- What `main` returns: the evaluation results `OrderedDict` in the
`eval_only` path, or the value of `trainer.train()` otherwise. -/
inductive MainReturn (α : Type) where
  | evalResults (res : List (String × α))
  | trainResult
deriving DecidableEq, Repr

/-- `main(args)` (lines 221–247), after `setup`.  The external calls are
recorded as `MainAction`s; the result of `Trainer.test(cfg, model)` and the
inner test result of `Trainer.test_with_TTA(cfg, model)` are parameters
(`test_result`, `tta_inner_result`).  `verify_results` runs on the main
process (single-process launch is assumed). -/
def main {α : Type} (args : ArgsT) (cfg : CfgT)
    (test_result tta_inner_result : List (String × α)) :
    List MainAction × MainReturn α :=
  if args.eval_only then
    let actions := [MainAction.build_model, MainAction.load_checkpoint,
                    MainAction.run_test]
    let res := test_result
    let step :=
      if cfg.test_aug_enabled then
        (actions ++ [MainAction.run_test_with_TTA],
          dictUpdate res (Trainer.test_with_TTA tta_inner_result))
      else (actions, res)
    (step.1 ++ [MainAction.verify_results], .evalResults step.2)
  else
    let actions := [MainAction.construct_trainer, MainAction.resume_or_load]
    let actions :=
      if cfg.test_aug_enabled then actions ++ [MainAction.register_TTA_hook]
      else actions
    (actions ++ [MainAction.run_train], .trainResult)

/-! ## Lemmas about the module tree -/

/-- Every parameter of `m`, recursively, has `requires_grad = False`. -/
def FrozenP (m : Module) : Prop := ∀ b ∈ m.params, b = false

mutual
theorem Module.params_freeze : ∀ m : Module,
    (Module.freeze m).params = m.params.map (fun _ => false)
  | .mk t tr ps cs => by
      simp [Module.freeze, Module.params, Module.paramsList_freezeList cs]

theorem Module.paramsList_freezeList : ∀ ms : List Module,
    Module.paramsList (Module.freezeList ms) = (Module.paramsList ms).map (fun _ => false)
  | [] => by simp [Module.freezeList, Module.paramsList]
  | m :: ms => by
      simp [Module.freezeList, Module.paramsList, Module.params_freeze m,
        Module.paramsList_freezeList ms]
end

mutual
theorem Module.params_evalMode : ∀ m : Module,
    (Module.evalMode m).params = m.params
  | .mk t tr ps cs => by
      simp [Module.evalMode, Module.params, Module.paramsList_evalModeList cs]

theorem Module.paramsList_evalModeList : ∀ ms : List Module,
    Module.paramsList (Module.evalModeList ms) = Module.paramsList ms
  | [] => by simp [Module.evalModeList]
  | m :: ms => by
      simp [Module.evalModeList, Module.paramsList, Module.params_evalMode m,
        Module.paramsList_evalModeList ms]
end

theorem Module.training_evalMode (m : Module) : (Module.evalMode m).training = false := by
  cases m with
  | mk t tr ps cs => simp [Module.evalMode, Module.training]

theorem frozenP_freeze (m : Module) : FrozenP (Module.freeze m) := by
  intro b hb
  rw [Module.params_freeze] at hb
  obtain ⟨a, -, ha⟩ := List.mem_map.1 hb
  exact ha.symm

theorem paramsList_sublist {l₁ l₂ : List Module} (h : l₁.Sublist l₂) :
    (Module.paramsList l₁).Sublist (Module.paramsList l₂) := by
  induction h with
  | slnil => simp
  | cons m _ ih =>
      refine ih.trans ?_
      simp only [Module.paramsList]
      exact (List.sublist_append_right _ _)
  | cons₂ m _ ih =>
      simp only [Module.paramsList]
      exact ih.append_left _

theorem mem_paramsList_of_mem {ms : List Module} {m : Module} (hm : m ∈ ms)
    {b : Bool} (hb : b ∈ m.params) : b ∈ Module.paramsList ms := by
  induction ms with
  | nil => cases hm
  | cons a as ih =>
      simp only [Module.paramsList, List.mem_append]
      rcases List.mem_cons.1 hm with rfl | hm'
      · exact Or.inl hb
      · exact Or.inr (ih hm')

theorem mem_params_of_mem_children {m : Module} {b : Bool}
    (hb : b ∈ Module.paramsList m.children) : b ∈ m.params := by
  cases m with
  | mk t tr ps cs =>
      simp only [Module.children] at hb
      simp only [Module.params, List.mem_append]
      exact Or.inr hb

theorem frozenP_ResNet50Bottom {m : Module} (hm : FrozenP m) :
    FrozenP (ResNet50Bottom m) := by
  intro b hb
  simp only [ResNet50Bottom, Module.params, Module.paramsList, sequential,
    List.nil_append, List.append_nil] at hb
  have hsub : (Module.paramsList (m.children.dropLast.dropLast)).Sublist
      (Module.paramsList m.children) :=
    paramsList_sublist ((List.dropLast_sublist _).trans (List.dropLast_sublist _))
  exact hm _ (mem_params_of_mem_children (hsub.subset hb))

theorem frozenP_vgg16Bottom {m m' : Module} (hm : FrozenP m)
    (h : vgg16Bottom m = .ok m') : FrozenP m' := by
  unfold vgg16Bottom at h
  cases hg : (sequential (m.children.dropLast.dropLast)).children.get? 0 with
  | none => simp only [hg] at h; cases h
  | some first =>
      simp only [hg] at h
      split at h
      · cases h
        intro b hb
        simp only [Module.params, Module.paramsList, sequential,
          List.nil_append, List.append_nil] at hb
        have h1 : b ∈ Module.paramsList first.children :=
          (paramsList_sublist (List.dropLast_sublist _)).subset hb
        have h2 : b ∈ first.params := mem_params_of_mem_children h1
        have hfm : first ∈ m.children := by
          have hmem := List.get?_mem hg
          simp only [sequential, Module.children] at hmem
          exact ((List.dropLast_sublist _).trans (List.dropLast_sublist _)).subset hmem
        exact hm _ (mem_params_of_mem_children (mem_paramsList_of_mem hfm h2))
      · cases h

theorem frozenP_wrapBottom {arch : String} {m m' : Module} (hm : FrozenP m)
    (h : wrapBottom arch m = .ok m') : FrozenP m' := by
  unfold wrapBottom at h
  split at h
  · cases h; exact frozenP_ResNet50Bottom hm
  · split at h
    · exact frozenP_vgg16Bottom hm h
    · cases h; exact hm

/-- Every module `get_model` returns is `Module.evalMode` of a module all of
whose parameters are frozen. -/
theorem get_model_ok {arch : String} {ps rd : Nat} {dev pw k : String} {m : Module}
    (h : get_model arch ps rd dev pw k = .ok m) :
    ∃ m', m = Module.evalMode m' ∧ FrozenP m' := by
  unfold get_model at h
  cases hbb : buildBase arch ps rd with
  | error e => simp [hbb] at h
  | ok model =>
      simp only [hbb] at h
      have h0 : FrozenP (Module.freeze model) := frozenP_freeze model
      cases hw1 : (if pyIn "imagenet" arch = true then Except.ok (Module.freeze model)
          else wrapBottom arch (Module.freeze model)) with
      | error e => simp [hw1] at h
      | ok model₂ =>
          simp only [hw1] at h
          have hf2 : FrozenP model₂ := by
            split at hw1
            · cases hw1; exact h0
            · exact frozenP_wrapBottom h0 hw1
          cases hw2 : wrapBottom arch model₂ with
          | error e => simp [hw2] at h
          | ok model₃ =>
              simp only [hw2] at h
              cases h
              exact ⟨model₃, rfl, frozenP_wrapBottom hf2 hw2⟩

/-! ## The claims -/

/-- C1: for every architecture string and valid inputs for which `get_model`
returns a model, every parameter of the returned model has `requires_grad`
set to `False` — the returned backbone is a frozen feature extractor. -/
theorem C1_get_model_params_frozen (arch : String) (patch_size resnet_dilate : Nat)
    (device pretrained_weights key : String) (m : Module)
    (h : get_model arch patch_size resnet_dilate device pretrained_weights key =
          Except.ok m) :
    m.params.all (fun b => !b) = true := by
  obtain ⟨m', rfl, hf⟩ := get_model_ok h
  rw [List.all_eq_true]
  intro b hb
  rw [Module.params_evalMode] at hb
  simp [hf b hb]

/-- Witness for C1 at `arch = "resnet50_imagenet"`, `resnet_dilate = 1`. -/
theorem C1_witness :
    (Module.evalMode (ResNet50Bottom (Module.freeze
        (resnet50 true [false, false, false])))).params.all (fun b => !b) = true :=
  C1_get_model_params_frozen "resnet50_imagenet" 16 1 "cuda" "dino.pth" "teacher"
    (Module.evalMode (ResNet50Bottom (Module.freeze (resnet50 true [false, false, false]))))
    (by rfl)

/-- C2 (code bug): for `arch = "resnet50"` (contains "resnet", not
"imagenet"), `resnet_dilate = 1`, `get_model` wraps the model in
`ResNet50Bottom` twice — at line 65 and again at line 72.  The second wrap
takes `children()[:-2]` of a wrapper with a single child, so the returned
model's `features` is an empty `nn.Sequential` and its `forward` is the
identity: the convolutional stages are NOT retained, contradicting the
intent stated in the comments at lines 70 and 84. -/
theorem C2_resnet_double_wrap_identity :
    get_model "resnet50" 16 1 "cuda" "dino_resnet50_pretrain.pth" "teacher" =
      Except.ok (Module.evalMode (ResNet50Bottom (ResNet50Bottom
        (Module.freeze (resnet50 false [false, false, false]))))) ∧
    (Module.evalMode (ResNet50Bottom (ResNet50Bottom
        (Module.freeze (resnet50 false [false, false, false]))))).children =
      [Module.mk "Sequential" false [] []] ∧
    (Module.evalMode (ResNet50Bottom (ResNet50Bottom
        (Module.freeze (resnet50 false [false, false, false]))))).forward ["x"] = ["x"] :=
  ⟨rfl, rfl, rfl⟩

/-- C3 (code bug): for `arch = "vgg16"` (contains "vgg16", not "imagenet"),
`get_model` applies `vgg16Bottom` twice — at line 67 and again at line 74.
The second application takes `children()[:-2]` of a wrapper with a single
child, leaving an empty `nn.Sequential`, and then `self.features[0]` raises
`IndexError`: the call does not succeed, contradicting the intended
head-removal truncation. -/
theorem C3_vgg16_double_wrap_raises :
    get_model "vgg16" 16 1 "cuda" "dino.pth" "teacher" = Except.error PyErr.indexError ∧
    (∃ w, vgg16Bottom (Module.freeze (vgg16 false)) = Except.ok w ∧
          vgg16Bottom w = Except.error PyErr.indexError) :=
  ⟨rfl, ⟨Module.mk "vgg16Bottom" true []
      [sequential (Module.freezeList vggFeatureLayers).dropLast], rfl, rfl⟩⟩

/-- C4: for every architecture string containing both "resnet" and
"imagenet" and `resnet_dilate ∈ {1, 2, 4}`, `get_model` returns a
`ResNet50Bottom` wrapper of the pretrained torchvision resnet50 (frozen and
put in eval mode) whose `features` are exactly the wrapped model's children
with the last two — `avgpool` and `fc` — removed, and `resnet_dilate`
1, 2, 4 select `replace_stride_with_dilation` `[False, False, False]`,
`[False, False, True]`, `[False, True, True]` respectively. -/
theorem C4_resnet_imagenet_structure (arch : String) (patch_size resnet_dilate : Nat)
    (device pretrained_weights key : String)
    (hres : pyIn "resnet" arch = true) (himg : pyIn "imagenet" arch = true)
    (hrd : resnet_dilate = 1 ∨ resnet_dilate = 2 ∨ resnet_dilate = 4) :
    get_model arch patch_size resnet_dilate device pretrained_weights key =
      Except.ok (Module.evalMode (ResNet50Bottom (Module.freeze
        (resnet50 true ((replaceStrideWithDilation resnet_dilate).getD []))))) ∧
    (ResNet50Bottom (Module.freeze
        (resnet50 true ((replaceStrideWithDilation resnet_dilate).getD [])))).children =
      [sequential ((Module.freeze
        (resnet50 true ((replaceStrideWithDilation resnet_dilate).getD
          []))).children.dropLast.dropLast)] ∧
    (resnet50 true ((replaceStrideWithDilation resnet_dilate).getD [])).children =
      (resnet50 true ((replaceStrideWithDilation resnet_dilate).getD
        [])).children.dropLast.dropLast ++ [plainLayer "avgpool", linearLayer "fc"] ∧
    replaceStrideWithDilation 1 = some [false, false, false] ∧
    replaceStrideWithDilation 2 = some [false, false, true] ∧
    replaceStrideWithDilation 4 = some [false, true, true] := by
  rcases hrd with rfl | rfl | rfl <;>
    exact ⟨by simp [get_model, buildBase, replaceStrideWithDilation, wrapBottom, hres, himg],
      rfl, rfl, rfl, rfl, rfl⟩

/-- Witness for C4 at `arch = "resnet50_imagenet"`, `resnet_dilate = 2`. -/
theorem C4_witness :
    get_model "resnet50_imagenet" 16 2 "cuda" "dino.pth" "teacher" =
      Except.ok (Module.evalMode (ResNet50Bottom (Module.freeze
        (resnet50 true ((replaceStrideWithDilation 2).getD []))))) ∧
    (ResNet50Bottom (Module.freeze
        (resnet50 true ((replaceStrideWithDilation 2).getD [])))).children =
      [sequential ((Module.freeze
        (resnet50 true ((replaceStrideWithDilation 2).getD
          []))).children.dropLast.dropLast)] ∧
    (resnet50 true ((replaceStrideWithDilation 2).getD [])).children =
      (resnet50 true ((replaceStrideWithDilation 2).getD
        [])).children.dropLast.dropLast ++ [plainLayer "avgpool", linearLayer "fc"] ∧
    replaceStrideWithDilation 1 = some [false, false, false] ∧
    replaceStrideWithDilation 2 = some [false, false, true] ∧
    replaceStrideWithDilation 4 = some [false, true, true] :=
  C4_resnet_imagenet_structure "resnet50_imagenet" 16 2 "cuda" "dino.pth" "teacher"
    (by rfl) (by rfl) (by decide)

/-- C8: for every architecture string containing "resnet" and every
`resnet_dilate` outside `{1, 2, 4}`, `get_model` raises (the local
`replace_stride_with_dilation` is never assigned, giving `UnboundLocalError`
at line 19/24) rather than returning a model; for `resnet_dilate ∈ {1, 2, 4}`
this error branch is unreachable and `get_model` returns a model. -/
theorem C8_invalid_resnet_dilate (arch : String) (patch_size resnet_dilate : Nat)
    (device pretrained_weights key : String) (hres : pyIn "resnet" arch = true) :
    (resnet_dilate ∉ ([1, 2, 4] : List Nat) →
      get_model arch patch_size resnet_dilate device pretrained_weights key =
        Except.error PyErr.unboundLocal) ∧
    (resnet_dilate ∈ ([1, 2, 4] : List Nat) →
      ∃ m, get_model arch patch_size resnet_dilate device pretrained_weights key =
        Except.ok m) := by
  constructor
  · intro hnot
    have h1 : resnet_dilate ≠ 1 := fun hx => hnot (by simp [hx])
    have h2 : resnet_dilate ≠ 2 := fun hx => hnot (by simp [hx])
    have h4 : resnet_dilate ≠ 4 := fun hx => hnot (by simp [hx])
    simp [get_model, buildBase, replaceStrideWithDilation, h1, h2, h4, hres]
  · intro hmem
    by_cases himg : pyIn "imagenet" arch = true
    · rcases (by simpa using hmem :
          resnet_dilate = 1 ∨ resnet_dilate = 2 ∨ resnet_dilate = 4) with rfl | rfl | rfl
      · exact ⟨Module.evalMode (ResNet50Bottom (Module.freeze
            (resnet50 true [false, false, false]))),
          by simp [get_model, buildBase, replaceStrideWithDilation, wrapBottom, hres, himg]⟩
      · exact ⟨Module.evalMode (ResNet50Bottom (Module.freeze
            (resnet50 true [false, false, true]))),
          by simp [get_model, buildBase, replaceStrideWithDilation, wrapBottom, hres, himg]⟩
      · exact ⟨Module.evalMode (ResNet50Bottom (Module.freeze
            (resnet50 true [false, true, true]))),
          by simp [get_model, buildBase, replaceStrideWithDilation, wrapBottom, hres, himg]⟩
    · rw [Bool.not_eq_true] at himg
      rcases (by simpa using hmem :
          resnet_dilate = 1 ∨ resnet_dilate = 2 ∨ resnet_dilate = 4) with rfl | rfl | rfl
      · exact ⟨Module.evalMode (ResNet50Bottom (ResNet50Bottom (Module.freeze
            (resnet50 false [false, false, false])))),
          by simp [get_model, buildBase, replaceStrideWithDilation, wrapBottom, hres, himg]⟩
      · exact ⟨Module.evalMode (ResNet50Bottom (ResNet50Bottom (Module.freeze
            (resnet50 false [false, false, true])))),
          by simp [get_model, buildBase, replaceStrideWithDilation, wrapBottom, hres, himg]⟩
      · exact ⟨Module.evalMode (ResNet50Bottom (ResNet50Bottom (Module.freeze
            (resnet50 false [false, true, true])))),
          by simp [get_model, buildBase, replaceStrideWithDilation, wrapBottom, hres, himg]⟩

/-- Witness for C8 at `arch = "resnet50"`, `resnet_dilate = 3`. -/
theorem C8_witness :
    get_model "resnet50" 16 3 "cuda" "dino.pth" "teacher" =
      Except.error PyErr.unboundLocal :=
  (C8_invalid_resnet_dilate "resnet50" 16 3 "cuda" "dino.pth" "teacher" (by rfl)).1
    (by decide)

/-- C9: every model `get_model` returns has been put in evaluation mode by
the `model.eval()` call at line 76: its `training` flag is `False`, for
every architecture branch. -/
theorem C9_get_model_eval_mode (arch : String) (patch_size resnet_dilate : Nat)
    (device pretrained_weights key : String) (m : Module)
    (h : get_model arch patch_size resnet_dilate device pretrained_weights key =
          Except.ok m) :
    m.training = false := by
  obtain ⟨m', rfl, -⟩ := get_model_ok h
  exact Module.training_evalMode m'

/-- Witness for C9 at `arch = "vit_small"` (the vision-transformer branch). -/
theorem C9_witness :
    (Module.evalMode (Module.freeze
      (Module.mk "VisionTransformer_vit_small_patch16" true [true, true] []))).training
        = false :=
  C9_get_model_eval_mode "vit_small" 16 1 "cuda" "dino.pth" "teacher"
    (Module.evalMode (Module.freeze
      (Module.mk "VisionTransformer_vit_small_patch16" true [true, true] [])))
    (by rfl)

/-- The semantics of every dataset function this script registers: open the
json file at `path` and return its `"dataset"` field. -/
theorem DatasetFunc_run_loadJson {α : Type} (path : String)
    (files : String → JsonFile α) :
    DatasetFunc.run (.loadJsonDatasetField path) files = (files path).field "dataset" :=
  rfl

/-- An initial pair of empty catalogs. -/
def emptyCatalogs : Catalogs := ⟨[], fun _ => Metadata.empty⟩

/-- The `ok` value of an `Except`, or a default. -/
def okD {ε α : Type} (e : Except ε α) (d : α) : α :=
  match e with
  | .ok a => a
  | .error _ => d

/-- The catalogs after the import-time registrations (lines 116–117), when
they succeed. -/
def afterImport (c₀ : Catalogs) : Catalogs :=
  okD (moduleImportRegistrations c₀) emptyCatalogs

/-- C5: on import the training script registers exactly four datasets in the
`DatasetCatalog` — `voc_2007_trainval_coco_style`, `voc_2007_test_coco_style`,
`voc_2012_trainval_coco_style` and `voc_2007_trainval_LOST_OD_clu20` — each
mapped to the function that loads its json file and returns the `"dataset"`
field, and each with `evaluator_type = "coco"` and `thing_classes` copied
from the corresponding built-in VOC dataset (the pseudo-box dataset copies
from `voc_2007_trainval`). -/
theorem C5_import_registers_four_datasets (c₀ : Catalogs)
    (h1 : "voc_2007_trainval_coco_style" ∉ c₀.datasetCatalog.map Prod.fst)
    (h2 : "voc_2007_test_coco_style" ∉ c₀.datasetCatalog.map Prod.fst)
    (h3 : "voc_2012_trainval_coco_style" ∉ c₀.datasetCatalog.map Prod.fst)
    (h4 : "voc_2007_trainval_LOST_OD_clu20" ∉ c₀.datasetCatalog.map Prod.fst) :
    moduleImportRegistrations c₀ = Except.ok (afterImport c₀) ∧
    (afterImport c₀).datasetCatalog = c₀.datasetCatalog ++
      [("voc_2007_trainval_coco_style",
         .loadJsonDatasetField "./datasets/voc_objects_2007_trainval_coco_style.json"),
       ("voc_2007_test_coco_style",
         .loadJsonDatasetField "./datasets/voc_objects_2007_test_coco_style.json"),
       ("voc_2012_trainval_coco_style",
         .loadJsonDatasetField "./datasets/voc_objects_2012_test_coco_style.json"),
       ("voc_2007_trainval_LOST_OD_clu20",
         .loadJsonDatasetField "./datasets/voc_2007_trainval_LOST_OD_clu20.json")] ∧
    ((afterImport c₀).metadataCatalog "voc_2007_trainval_coco_style").evaluator_type
      = some "coco" ∧
    ((afterImport c₀).metadataCatalog "voc_2007_test_coco_style").evaluator_type
      = some "coco" ∧
    ((afterImport c₀).metadataCatalog "voc_2012_trainval_coco_style").evaluator_type
      = some "coco" ∧
    ((afterImport c₀).metadataCatalog "voc_2007_trainval_LOST_OD_clu20").evaluator_type
      = some "coco" ∧
    ((afterImport c₀).metadataCatalog "voc_2007_trainval_coco_style").thing_classes
      = (c₀.metadataCatalog "voc_2007_trainval").thing_classes ∧
    ((afterImport c₀).metadataCatalog "voc_2007_test_coco_style").thing_classes
      = (c₀.metadataCatalog "voc_2007_test").thing_classes ∧
    ((afterImport c₀).metadataCatalog "voc_2012_trainval_coco_style").thing_classes
      = (c₀.metadataCatalog "voc_2012_trainval").thing_classes ∧
    ((afterImport c₀).metadataCatalog "voc_2007_trainval_LOST_OD_clu20").thing_classes
      = (c₀.metadataCatalog "voc_2007_trainval").thing_classes ∧
    (∀ (α : Type) (files : String → JsonFile α) (path : String),
      DatasetFunc.run (.loadJsonDatasetField path) files = (files path).field "dataset") := by
  have hreg : moduleImportRegistrations c₀ = Except.ok (afterImport c₀) ∧
      (afterImport c₀).datasetCatalog = c₀.datasetCatalog ++
        [("voc_2007_trainval_coco_style",
           .loadJsonDatasetField "./datasets/voc_objects_2007_trainval_coco_style.json"),
         ("voc_2007_test_coco_style",
           .loadJsonDatasetField "./datasets/voc_objects_2007_test_coco_style.json"),
         ("voc_2012_trainval_coco_style",
           .loadJsonDatasetField "./datasets/voc_objects_2012_test_coco_style.json"),
         ("voc_2007_trainval_LOST_OD_clu20",
           .loadJsonDatasetField "./datasets/voc_2007_trainval_LOST_OD_clu20.json")] := by
    constructor <;>
      simp [moduleImportRegistrations, register_voc_in_coco_style,
        register_clustered_LOST_pseudo_boxes_for_the_voc2007_trainval_dataset,
        registerOneVocInCocoStyle, registerDataset, setMeta, afterImport, okD,
        Bind.bind, Except.bind, h1, h2, h3, h4]
  refine ⟨hreg.1, hreg.2, ?_, ?_, ?_, ?_, ?_, ?_, ?_, ?_, fun α files path => rfl⟩ <;>
    simp [moduleImportRegistrations, register_voc_in_coco_style,
      register_clustered_LOST_pseudo_boxes_for_the_voc2007_trainval_dataset,
      registerOneVocInCocoStyle, registerDataset, setMeta, afterImport, okD,
      Bind.bind, Except.bind, h1, h2, h3, h4]

/-- Witness for C5 starting from empty catalogs. -/
theorem C5_witness :
    moduleImportRegistrations emptyCatalogs = Except.ok (afterImport emptyCatalogs) :=
  (C5_import_registers_four_datasets emptyCatalogs (by simp [emptyCatalogs])
    (by simp [emptyCatalogs]) (by simp [emptyCatalogs]) (by simp [emptyCatalogs])).1

/-- C6: `Trainer.build_evaluator` raises `NotImplementedError` exactly when
the dataset's `evaluator_type` is none of the seven handled types; for each
handled type it returns an evaluator — a single one when exactly one matches,
a `DatasetEvaluators` combination when several match — and for `"coco"` a
`COCOEvaluator` is among them. -/
theorem C6_build_evaluator_spec (dataset_name evaluator_type : String) :
    ((∃ msg, Trainer.build_evaluator dataset_name evaluator_type = Except.error msg) ↔
      evaluator_type ∉ handledEvaluatorTypes) ∧
    Trainer.build_evaluator dataset_name "sem_seg" =
      Except.ok (.single (.semSeg dataset_name)) ∧
    Trainer.build_evaluator dataset_name "coco" =
      Except.ok (.single (.coco dataset_name)) ∧
    Trainer.build_evaluator dataset_name "coco_panoptic_seg" =
      Except.ok (.combined
        [.semSeg dataset_name, .coco dataset_name, .cocoPanoptic dataset_name]) ∧
    Trainer.build_evaluator dataset_name "cityscapes_instance" =
      Except.ok (.single (.cityscapesInstance dataset_name)) ∧
    Trainer.build_evaluator dataset_name "cityscapes_sem_seg" =
      Except.ok (.single (.cityscapesSemSeg dataset_name)) ∧
    Trainer.build_evaluator dataset_name "pascal_voc" =
      Except.ok (.single (.pascalVOC dataset_name)) ∧
    Trainer.build_evaluator dataset_name "lvis" =
      Except.ok (.single (.lvis dataset_name)) := by
  refine ⟨⟨?_, ?_⟩, rfl, rfl, rfl, rfl, rfl, rfl, rfl⟩
  · rintro ⟨msg, hmsg⟩ hmem
    simp only [handledEvaluatorTypes, List.mem_cons, List.not_mem_nil, or_false] at hmem
    rcases hmem with rfl | rfl | rfl | rfl | rfl | rfl | rfl <;>
      simp [Trainer.build_evaluator] at hmsg
  · intro hmem
    simp only [handledEvaluatorTypes, List.mem_cons, List.not_mem_nil, or_false,
      not_or] at hmem
    obtain ⟨hn1, hn2, hn3, hn4, hn5, hn6, hn7⟩ := hmem
    exact ⟨"no Evaluator for the dataset " ++ dataset_name ++ " with the type "
        ++ evaluator_type,
      by simp [Trainer.build_evaluator, hn1, hn2, hn3, hn4, hn5, hn6, hn7]⟩

/-- C7: with `args.eval_only` true, `main` builds the model, loads the
configured weights, and returns the `Trainer.test` results — augmented with
the `test_with_TTA` results exactly when `cfg.TEST.AUG.ENABLED` is set —
without constructing a `Trainer` or calling `train`; training is entered only
when `args.eval_only` is false. -/
theorem C7_main_eval_only {α : Type} (resume : Bool) (cfg : CfgT)
    (test_result tta_inner_result : List (String × α)) :
    (main ⟨true, resume⟩ cfg test_result tta_inner_result).2 =
      MainReturn.evalResults (if cfg.test_aug_enabled then
        dictUpdate test_result (Trainer.test_with_TTA tta_inner_result)
      else test_result) ∧
    MainAction.construct_trainer ∉
      (main ⟨true, resume⟩ cfg test_result tta_inner_result).1 ∧
    MainAction.run_train ∉ (main ⟨true, resume⟩ cfg test_result tta_inner_result).1 ∧
    MainAction.build_model ∈ (main ⟨true, resume⟩ cfg test_result tta_inner_result).1 ∧
    MainAction.load_checkpoint ∈
      (main ⟨true, resume⟩ cfg test_result tta_inner_result).1 ∧
    MainAction.run_test ∈ (main ⟨true, resume⟩ cfg test_result tta_inner_result).1 ∧
    (MainAction.run_test_with_TTA ∈
        (main ⟨true, resume⟩ cfg test_result tta_inner_result).1 ↔
      cfg.test_aug_enabled = true) ∧
    (main ⟨false, resume⟩ cfg test_result tta_inner_result).2 =
      MainReturn.trainResult ∧
    MainAction.run_train ∈ (main ⟨false, resume⟩ cfg test_result tta_inner_result).1 := by
  obtain ⟨aug⟩ := cfg
  cases aug <;> simp [main]

/-- C10: `Trainer.test_with_TTA` returns an `OrderedDict` whose keys are
exactly the keys of the underlying `Trainer.test` result with the suffix
`"_TTA"` appended, and whose values are the corresponding unchanged result
values. -/
theorem C10_test_with_TTA_keys {α : Type} (inner_test_result : List (String × α)) :
    (Trainer.test_with_TTA inner_test_result).map Prod.fst =
      inner_test_result.map (fun kv => kv.1 ++ "_TTA") ∧
    (Trainer.test_with_TTA inner_test_result).map Prod.snd =
      inner_test_result.map Prod.snd := by
  constructor <;> simp [Trainer.test_with_TTA, List.map_map, Function.comp]

end LOST
